import Mathlib

/-!
Shallow embedding of the transaction-scoring subsystem of the FinAi
personal-finance application: the rule-based fraud detector
(`detectFraud`), the merchant categorizer (`categorizeTransaction`), the
financial-health scorer (`calculateFinancialHealth`), the dataset pattern
miner (`processDataset`), and the rule-based branch of the LLM fraud
analysis orchestrator (`analyzeFraudWithLLM`).

Modelling conventions, used throughout:
* JavaScript numbers are modelled as exact rationals (`ℚ`).  The one place
  where IEEE special values are semantically relevant — the division by a
  zero `monthlyExpense` in the liquidity computation, which yields
  `Infinity` in JavaScript — is modelled explicitly with the `JNum` type.
* `Math.round x` is `⌊x + 1/2⌋` (`jsRound`), as in JavaScript for finite
  arguments.
* Wall-clock time (`Date.now()`, `new Date()` with `setMonth`) is passed
  in as an explicit rational parameter (`now`, respectively the
  `threeMonthsAgo` cutoff), holding milliseconds since the epoch.
* `String.prototype.toLowerCase` is modelled on the character list of the
  string (`lowerStr`); merchants and categories in scope are ASCII.
* JavaScript objects used as string-keyed accumulators preserve key
  insertion order; `Object.entries` of such an accumulator is modelled
  directly as the list of first-occurrence keys paired with their final
  aggregated values.
-/

/-- Lower-case an ASCII character, as `toLowerCase` does on ASCII input. -/
def lcChar (c : Char) : Char :=
  if 65 ≤ c.toNat ∧ c.toNat ≤ 90 then Char.ofNat (c.toNat + 32) else c

/-- The character list of `s.toLowerCase()`. -/
def lowerStr (s : String) : List Char :=
  s.data.map lcChar

/-- `needle` occurs as a contiguous sublist of `hay` (JavaScript
`String.prototype.includes` on character lists). -/
def sublistCheck : List Char → List Char → Bool
  | needle, [] => needle.isEmpty
  | needle, c :: rest => needle.isPrefixOf (c :: rest) || sublistCheck needle rest

/-- `hay.includes(kw)` for an already-lower-cased haystack `hay`. -/
def includesKw (hay : List Char) (kw : String) : Bool :=
  sublistCheck kw.data hay

/-- `Math.round` on a finite JavaScript number: round half towards
positive infinity. -/
def jsRound (q : ℚ) : ℤ :=
  ⌊q + 1/2⌋

/-- A transaction as consumed by the scoring subsystem (`Transaction` in
`shared/schema`): `amount` is the parsed value of the stored decimal
string, `date` is milliseconds since the epoch, `type` is one of the
strings "income" / "expense" / "transfer". -/
structure Txn where
  amount : ℚ
  merchant : String
  category : String
  type : String
  date : ℚ
  isFraudulent : Bool
deriving DecidableEq

/-! ## Categorizer (`categorizeTransaction`) -/

/-- `categorizeTransaction` from the fraud-detection module: the merchant
string is lower-cased and matched against keyword groups in a fixed
order; the first group with a matching keyword names the category, and
"Other" is returned when no keyword matches.  The `amount` argument is
accepted and unused, as in the source. -/
def categorizeTransaction (merchant : String) (amount : ℚ) : String :=
  let merchantLower := lowerStr merchant
  if includesKw merchantLower "restaurant" || includesKw merchantLower "cafe" ||
     includesKw merchantLower "coffee" || includesKw merchantLower "pizza" ||
     includesKw merchantLower "burger" || includesKw merchantLower "food" ||
     includesKw merchantLower "grubhub" || includesKw merchantLower "doordash" ||
     includesKw merchantLower "ubereats" then "Food & Dining"
  else if includesKw merchantLower "grocery" || includesKw merchantLower "supermarket" ||
     includesKw merchantLower "walmart" || includesKw merchantLower "target" ||
     includesKw merchantLower "whole foods" || includesKw merchantLower "trader joe" then "Groceries"
  else if includesKw merchantLower "uber" || includesKw merchantLower "lyft" ||
     includesKw merchantLower "taxi" || includesKw merchantLower "gas" ||
     includesKw merchantLower "fuel" || includesKw merchantLower "parking" then "Transportation"
  else if includesKw merchantLower "amazon" || includesKw merchantLower "ebay" ||
     includesKw merchantLower "mall" || includesKw merchantLower "store" then "Shopping"
  else if includesKw merchantLower "netflix" || includesKw merchantLower "spotify" ||
     includesKw merchantLower "hulu" || includesKw merchantLower "cinema" ||
     includesKw merchantLower "theater" || includesKw merchantLower "movie" then "Entertainment"
  else if includesKw merchantLower "electric" || includesKw merchantLower "water" ||
     includesKw merchantLower "internet" || includesKw merchantLower "phone" ||
     includesKw merchantLower "verizon" || includesKw merchantLower "at&t" then "Utilities"
  else if includesKw merchantLower "pharmacy" || includesKw merchantLower "hospital" ||
     includesKw merchantLower "doctor" || includesKw merchantLower "medical" ||
     includesKw merchantLower "cvs" || includesKw merchantLower "walgreens" then "Healthcare"
  else if includesKw merchantLower "airline" || includesKw merchantLower "hotel" ||
     includesKw merchantLower "airbnb" || includesKw merchantLower "booking" then "Travel"
  else "Other"

/-- The ordered keyword table of the categorizer, as described by the
specification: each row pairs a category with its keyword group, rows
checked in order. -/
def categoryKeywordTable : List (String × List String) :=
  [("Food & Dining", ["restaurant", "cafe", "coffee", "pizza", "burger", "food",
      "grubhub", "doordash", "ubereats"]),
   ("Groceries", ["grocery", "supermarket", "walmart", "target", "whole foods", "trader joe"]),
   ("Transportation", ["uber", "lyft", "taxi", "gas", "fuel", "parking"]),
   ("Shopping", ["amazon", "ebay", "mall", "store"]),
   ("Entertainment", ["netflix", "spotify", "hulu", "cinema", "theater", "movie"]),
   ("Utilities", ["electric", "water", "internet", "phone", "verizon", "at&t"]),
   ("Healthcare", ["pharmacy", "hospital", "doctor", "medical", "cvs", "walgreens"]),
   ("Travel", ["airline", "hotel", "airbnb", "booking"])]

/-- First-match-wins category lookup over an ordered keyword table, with
"Other" as the fallback — the specification's description of the
categorizer's algorithm. -/
def firstMatchCategory (ml : List Char) : List (String × List String) → String
  | [] => "Other"
  | (cat, kws) :: rest =>
    if kws.any (fun kw => includesKw ml kw) then cat else firstMatchCategory ml rest

/-- The categorizer as the specification words it: case-insensitive
first-match over the ordered keyword table. -/
def categorizeSpec (merchant : String) : String :=
  firstMatchCategory (lowerStr merchant) categoryKeywordTable

/-- The closed category taxonomy. -/
def categoryTaxonomy : List String :=
  ["Food & Dining", "Groceries", "Transportation", "Shopping", "Entertainment",
   "Utilities", "Healthcare", "Travel", "Other"]

/-! ## Fraud Rule Engine (`detectFraud`) -/

/-- One triggered fraud rule: its reason string and candidate score. -/
structure Risk where
  reason : String
  score : ℕ
deriving DecidableEq

/-- Result shape of `detectFraud`: verdict, optional reason, 0–100 risk
score. -/
structure FraudCheckResult where
  isFraudulent : Bool
  reason : Option String
  riskScore : ℕ
deriving DecidableEq

/-- `(Date.now() - new Date(t.date).getTime()) / (1000 * 60 * 60)`. -/
def hoursDiff (now date : ℚ) : ℚ :=
  (now - date) / (1000 * 60 * 60)

/-- `(Date.now() - new Date(t.date).getTime()) / (1000 * 60)`. -/
def minutesDiff (now date : ℚ) : ℚ :=
  (now - date) / (1000 * 60)

/-- The user's transactions dated within the trailing 24 hours from
`now` (rule 3's velocity window). -/
def last24Hours (recent : List Txn) (now : ℚ) : List Txn :=
  recent.filter (fun t => hoursDiff now t.date ≤ 24)

/-- The user's transactions dated within the trailing 5 minutes from
`now` (rule 4's window). -/
def last5Minutes (recent : List Txn) (now : ℚ) : List Txn :=
  recent.filter (fun t => minutesDiff now t.date ≤ 5)

/-- Prior transactions sharing the candidate's merchant,
case-insensitively (rule 5's `merchantFrequency`). -/
def merchantMatches (txn : Txn) (recent : List Txn) : List Txn :=
  recent.filter (fun t => lowerStr t.merchant = lowerStr txn.merchant)

/-- Prior transactions with the same merchant (case-insensitive), amount
within 0.01 of the candidate's, dated within the trailing hour (rule 6's
`duplicates`). -/
def duplicateMatches (txn : Txn) (recent : List Txn) (now : ℚ) : List Txn :=
  recent.filter (fun t =>
    hoursDiff now t.date ≤ 1 ∧ lowerStr t.merchant = lowerStr txn.merchant ∧
      |t.amount - txn.amount| < 1/100)

/-- Rule 1's condition: amount above 50,000. -/
def largeAmount (txn : Txn) : Prop :=
  txn.amount > 50000

instance (txn : Txn) : Decidable (largeAmount txn) :=
  inferInstanceAs (Decidable (txn.amount > 50000))

/-- Rule 2's condition: amount above 100,000. -/
def veryLargeAmount (txn : Txn) : Prop :=
  txn.amount > 100000

instance (txn : Txn) : Decidable (veryLargeAmount txn) :=
  inferInstanceAs (Decidable (txn.amount > 100000))

/-- Rule 3's condition: at least 20 transactions in the trailing 24
hours. -/
def highVelocity (recent : List Txn) (now : ℚ) : Prop :=
  (last24Hours recent now).length ≥ 20

instance (recent : List Txn) (now : ℚ) : Decidable (highVelocity recent now) :=
  inferInstanceAs (Decidable ((last24Hours recent now).length ≥ 20))

/-- Rule 4's condition: at least 10 transactions in the trailing 5
minutes. -/
def rapidTransactions (recent : List Txn) (now : ℚ) : Prop :=
  (last5Minutes recent now).length ≥ 10

instance (recent : List Txn) (now : ℚ) : Decidable (rapidTransactions recent now) :=
  inferInstanceAs (Decidable ((last5Minutes recent now).length ≥ 10))

/-- Rule 5's condition: no prior transaction with this merchant and
amount above 10,000. -/
def firstTimeMerchantLarge (txn : Txn) (recent : List Txn) : Prop :=
  (merchantMatches txn recent).length = 0 ∧ txn.amount > 10000

instance (txn : Txn) (recent : List Txn) : Decidable (firstTimeMerchantLarge txn recent) :=
  inferInstanceAs (Decidable ((merchantMatches txn recent).length = 0 ∧ txn.amount > 10000))

/-- Rule 6's condition: at least one near-duplicate in the trailing
hour. -/
def hasDuplicates (txn : Txn) (recent : List Txn) (now : ℚ) : Prop :=
  (duplicateMatches txn recent now).length > 0

instance (txn : Txn) (recent : List Txn) (now : ℚ) : Decidable (hasDuplicates txn recent now) :=
  inferInstanceAs (Decidable ((duplicateMatches txn recent now).length > 0))

/-- The `risks` array built by `detectFraud`: each rule, checked in
source order, pushes its reason/score pair when its condition holds. -/
def detectFraudRisks (txn : Txn) (recent : List Txn) (now : ℚ) : List Risk :=
  (if largeAmount txn then [⟨"Unusually large transaction amount", 55⟩] else []) ++
  (if veryLargeAmount txn then [⟨"Extremely large transaction amount", 85⟩] else []) ++
  (if highVelocity recent now then
    [⟨"High transaction velocity (20+ transactions in 24 hours)", 70⟩] else []) ++
  (if rapidTransactions recent now then
    [⟨"Multiple rapid transactions (10+ in 5 minutes)", 80⟩] else []) ++
  (if firstTimeMerchantLarge txn recent then
    [⟨"First-time merchant with large amount", 40⟩] else []) ++
  (if hasDuplicates txn recent now then [⟨"Potential duplicate transaction", 90⟩] else [])

/-- `detectFraud`: risk score is the maximum of the triggered rules'
scores (`Math.max` over the pushed scores, 0 when none triggered), the
verdict is fraudulent at score 85 and above, and the reason is that of
the first rule attaining the maximum — reported only on a fraudulent
verdict. -/
def detectFraud (txn : Txn) (recent : List Txn) (now : ℚ) : FraudCheckResult :=
  let risks := detectFraudRisks txn recent now
  let maxRiskScore := if risks.length > 0 then (risks.map (·.score)).foldl max 0 else 0
  let isF : Bool := maxRiskScore ≥ 85
  { isFraudulent := isF
    reason := if isF then (risks.find? (fun r => r.score = maxRiskScore)).map (·.reason) else none
    riskScore := maxRiskScore }

/-- The scores of the triggered rules, stated rule by rule from the
individual rule conditions — the specification's "triggered rule
scores". -/
def triggeredScores (txn : Txn) (recent : List Txn) (now : ℚ) : List ℕ :=
  (if largeAmount txn then [55] else []) ++
  (if veryLargeAmount txn then [85] else []) ++
  (if highVelocity recent now then [70] else []) ++
  (if rapidTransactions recent now then [80] else []) ++
  (if firstTimeMerchantLarge txn recent then [40] else []) ++
  (if hasDuplicates txn recent now then [90] else [])

/-! ## Financial Health Scorer (`calculateFinancialHealth`) -/

/-- Result shape of `calculateFinancialHealth`: the composite score and
the five component scores, each an integer (the source applies
`Math.round` to every component). -/
structure HealthScoreComponents where
  score : ℤ
  incomeStability : ℤ
  expenseRatio : ℤ
  savingsRate : ℤ
  debtRatio : ℤ
  liquidity : ℤ
deriving DecidableEq

/-- A JavaScript number that is either finite or positive infinity: the
liquidity computation divides a positive `savingsAmount` by
`monthlyExpenses`, which in JavaScript yields `Infinity` when the
divisor is zero.  No other special value is reachable on that path. -/
inductive JNum where
  | fin (q : ℚ)
  | posInf
deriving DecidableEq

/-- Transactions dated on or after the cutoff (`new Date(t.date) >=
threeMonthsAgo`). -/
def recentIn (transactions : List Txn) (threeMonthsAgo : ℚ) : List Txn :=
  transactions.filter (fun t => threeMonthsAgo ≤ t.date)

/-- Sum of the parsed amounts of a transaction list. -/
def sumAmounts (ts : List Txn) : ℚ :=
  ts.foldl (fun s t => s + t.amount) 0

/-- Total expenses in the 3-month window. -/
def expensesIn (transactions : List Txn) (threeMonthsAgo : ℚ) : ℚ :=
  sumAmounts ((recentIn transactions threeMonthsAgo).filter (fun t => t.type = "expense"))

/-- Total income in the 3-month window. -/
def incomeIn (transactions : List Txn) (threeMonthsAgo : ℚ) : ℚ :=
  sumAmounts ((recentIn transactions threeMonthsAgo).filter (fun t => t.type = "income"))

/-- `savingsAmount`: window income minus window expenses. -/
def savingsIn (transactions : List Txn) (threeMonthsAgo : ℚ) : ℚ :=
  incomeIn transactions threeMonthsAgo - expensesIn transactions threeMonthsAgo

/-- A category counts towards debt when it contains "loan", "debt" or
"credit", case-insensitively. -/
def isDebtCategory (category : String) : Bool :=
  includesKw (lowerStr category) "loan" || includesKw (lowerStr category) "debt" ||
    includesKw (lowerStr category) "credit"

/-- `calculateFinancialHealth`: with no transactions or zero income all
components are the neutral 50; otherwise the five components and the
weighted composite are computed over the trailing 3-month window
(`threeMonthsAgo` is the wall-clock cutoff the source derives from
`new Date()`).  The decimal weights 0.20 / 0.25 / 0.15 are carried as
the exact rationals they denote. -/
def calculateFinancialHealth (transactions : List Txn) (monthlyIncome : ℚ)
    (threeMonthsAgo : ℚ) : HealthScoreComponents :=
  if transactions.length = 0 ∨ monthlyIncome = 0 then
    ⟨50, 50, 50, 50, 50, 50⟩
  else
    let recentTransactions := recentIn transactions threeMonthsAgo
    let incomeTransactions := recentTransactions.filter (fun t => t.type = "income")
    let incomeStability : ℚ :=
      if incomeTransactions.length ≥ 3 then 85 else min (incomeTransactions.length * 20) 100
    let expenses := expensesIn transactions threeMonthsAgo
    let expenseRatioValue := if monthlyIncome > 0 then expenses / (monthlyIncome * 3) else 1
    let expenseRatio := max 0 (100 - expenseRatioValue * 100)
    let income := incomeIn transactions threeMonthsAgo
    let savingsAmount := income - expenses
    let savingsRateValue := if income > 0 then savingsAmount / income else 0
    let savingsRate := max 0 (min 100 (savingsRateValue * 100))
    let debtPayments :=
      sumAmounts (recentTransactions.filter (fun t => isDebtCategory t.category))
    let debtRatioValue := if monthlyIncome > 0 then debtPayments / (monthlyIncome * 3) else 0
    let debtRatio := max 0 (100 - debtRatioValue * 100)
    let monthlyExpenses := expenses / 3
    let liquidityMonths : JNum :=
      if savingsAmount > 0 then
        (if monthlyExpenses = 0 then .posInf else .fin (savingsAmount / monthlyExpenses))
      else .fin 0
    -- `Math.min(100, (liquidityMonths / 6) * 100)`: an infinite number of
    -- months scales to infinity and the minimum collapses to 100.
    let liquidity : ℚ :=
      match liquidityMonths with
      | .posInf => 100
      | .fin q => min 100 (q / 6 * 100)
    let score := jsRound (incomeStability * (20/100) + expenseRatio * (25/100) +
      savingsRate * (25/100) + debtRatio * (15/100) + liquidity * (15/100))
    ⟨max 0 (min 100 score), jsRound incomeStability, jsRound expenseRatio,
      jsRound savingsRate, jsRound debtRatio, jsRound liquidity⟩

/-! ## Dataset Pattern Miner (`processDataset`) -/

/-- A CSV amount cell as seen through `parseFloat`: absent covers both a
missing column and an empty string (falsy either way), `nanVal` a
non-empty string that parses to `NaN`, and `num q` a non-empty string
parsing to the number `q`. -/
inductive AmtCell where
  | absent
  | nanVal
  | num (q : ℚ)
deriving DecidableEq

/-- JavaScript truthiness of an amount cell: only the absent/empty cell
is falsy. -/
def AmtCell.truthy : AmtCell → Bool
  | .absent => false
  | _ => true

/-- `a || b` on amount cells. -/
def jsOrAmt (a b : AmtCell) : AmtCell :=
  if a.truthy then a else b

/-- One parsed row of the bulk fraud dataset.  String columns are
`Option String` (`none` when the column is absent; an empty string is a
present-but-falsy value).  `transactionTimeHour` is the local hour
`new Date(row.TransactionTime).getHours()` would produce, `none` when the
column is falsy or the date unparsable (`NaN` fails every bucket
comparison). -/
structure DRecord where
  isFraud : String
  paymentType : Option String
  productCD : Option String
  deviceType : Option String
  transactionAmt : AmtCell
  amountCol : AmtCell
  transactionTimeHour : Option ℕ
  country : Option String
  browser : Option String
  merchantCol : Option String
  merchantID : Option String
deriving DecidableEq

/-- JavaScript truthiness of an optional string. -/
def truthyS (o : Option String) : Bool :=
  o.getD "" ≠ ""

/-- The row's fraud label: `row.isFraud === "1"` (CSV cells are strings,
so the `=== 1` alternative in the source never fires). -/
def isFraudRec (r : DRecord) : Bool :=
  r.isFraud = "1"

/-- `parseFloat(row.TransactionAmt || row.Amount || "0")`, `none` when
the parse yields `NaN`. -/
def recordAmt (r : DRecord) : Option ℚ :=
  match jsOrAmt r.transactionAmt (jsOrAmt r.amountCol (.num 0)) with
  | .num q => some q
  | _ => none

/-- `extractPatterns`: the categorical pattern keys derived from one
dataset row, in the source's push order (payment, device, amount bucket,
time bucket, country, browser). -/
def extractPatterns (r : DRecord) : List String :=
  (if truthyS r.paymentType || truthyS r.productCD then
    ["payment_" ++ (if truthyS r.paymentType then r.paymentType.getD "" else r.productCD.getD "")]
   else []) ++
  (if truthyS r.deviceType then ["device_" ++ r.deviceType.getD ""] else []) ++
  (match recordAmt r with
   | none => []
   | some amount =>
     if amount > 100000 then ["amount_100k+"]
     else if amount > 50000 then ["amount_50k-100k"]
     else if amount > 10000 then ["amount_10k-50k"]
     else if amount < 100 then ["amount_under_100"]
     else []) ++
  (match r.transactionTimeHour with
   | none => []
   | some hour =>
     if hour < 6 then ["time_early_morning"]
     else if 18 ≤ hour ∧ hour < 24 then ["time_evening"]
     else if 12 ≤ hour ∧ hour < 18 then ["time_afternoon"]
     else []) ++
  (if truthyS r.country then ["country_" ++ r.country.getD ""] else []) ++
  (if truthyS r.browser then ["browser_" ++ r.browser.getD ""] else [])

/-- The fixed description table of `getPatternDescription`; an unknown
key describes itself. -/
def patternDescTable : List (String × String) :=
  [("payment_S", "Shopping transaction"),
   ("payment_W", "Withdrawal transaction"),
   ("payment_C", "Cash transaction"),
   ("device_desktop", "Desktop device"),
   ("device_mobile", "Mobile device"),
   ("amount_100k+", "Very high transaction amount (₹100k+)"),
   ("amount_50k-100k", "High transaction amount (₹50k-100k)"),
   ("amount_10k-50k", "Medium-high transaction amount (₹10k-50k)"),
   ("amount_under_100", "Very low transaction amount"),
   ("time_early_morning", "Early morning transaction (12am-6am)"),
   ("time_evening", "Evening transaction (6pm-12am)"),
   ("time_afternoon", "Afternoon transaction (12pm-6pm)")]

/-- `getPatternDescription`. -/
def getPatternDescription (pattern : String) : String :=
  ((patternDescTable.find? (fun e => e.1 = pattern)).map (·.2)).getD pattern

/-- One mined pattern: key, frequency, 0–100 risk score, description. -/
structure PretrainedFraudPattern where
  pattern : String
  frequency : ℕ
  fraudRiskScore : ℤ
  description : String
deriving DecidableEq

/-- The mined snapshot (`DatasetPatterns`).  The source also stores a
`lastUpdated : Date` wall-clock stamp, irrelevant to the mining logic and
omitted here. -/
structure DatasetPatterns where
  patterns : List PretrainedFraudPattern
  totalTransactionsAnalyzed : ℕ
  fraudPercentage : ℚ
  highRiskMerchants : List String
  commonFraudIndicators : List String
deriving DecidableEq

/-- The (key, fraud-label) event stream of a dataset: each row
contributes one event per extracted pattern key. -/
def allEvents (records : List DRecord) : List (String × Bool) :=
  (records.map (fun r => (extractPatterns r).map (fun k => (k, isFraudRec r)))).flatten

/-- Number of events carrying a key — the accumulator's `count` for that
key. -/
def countEv (events : List (String × Bool)) (k : String) : ℕ :=
  (events.filter (fun e => e.1 = k)).length

/-- Number of fraudulent events carrying a key — the accumulator's
`fraudCount`. -/
def fraudEv (events : List (String × Bool)) (k : String) : ℕ :=
  (events.filter (fun e => e.1 = k ∧ e.2)).length

/-- First-occurrence key order of a list of events: the key enumeration
order of the JavaScript accumulator object. -/
def firstOccurKeys (events : List (String × Bool)) : List String :=
  events.foldl (fun acc e => if acc.contains e.1 then acc else acc ++ [e.1]) []

/-- `Object.entries(patternFrequency)`: keys in first-insertion order,
each with its final count and fraud count. -/
def patternFrequency (records : List DRecord) : List (String × ℕ × ℕ) :=
  (firstOccurKeys (allEvents records)).map
    (fun k => (k, countEv (allEvents records) k, fraudEv (allEvents records) k))

/-- Scored pattern for one accumulator entry:
`min(100, Math.round(fraud_rate_percent * 2))`. -/
def mkPattern (k : String) (count fraudCount : ℕ) : PretrainedFraudPattern :=
  ⟨k, count, min 100 (jsRound ((fraudCount : ℚ) / count * 100 * 2)), getPatternDescription k⟩

/-- Stable descending insertion by `fraudRiskScore`: an element is placed
before the first strictly smaller score, after equal ones already
present. -/
def insertDesc (p : PretrainedFraudPattern) : List PretrainedFraudPattern →
    List PretrainedFraudPattern
  | [] => [p]
  | q :: rest => if q.fraudRiskScore > p.fraudRiskScore then q :: insertDesc p rest
    else p :: q :: rest

/-- Stable sort by descending `fraudRiskScore` — the observable behaviour
of `Array.prototype.sort` with comparator `b.fraudRiskScore -
a.fraudRiskScore`. -/
def sortByScoreDesc : List PretrainedFraudPattern → List PretrainedFraudPattern
  | [] => []
  | p :: rest => insertDesc p (sortByScoreDesc rest)

/-- First-occurrence merchant name order over the processed rows. -/
def firstOccurMerchants (names : List String) : List String :=
  names.foldl (fun acc m => if acc.contains m then acc else acc ++ [m]) []

/-- `row.Merchant || `Merchant_${row.MerchantID || "Unknown"}``, the
merchant name used when building `merchantFraudMap`. -/
def merchantName (r : DRecord) : String :=
  if truthyS r.merchantCol then r.merchantCol.getD ""
  else "Merchant_" ++ (if truthyS r.merchantID then r.merchantID.getD "" else "Unknown")

/-- `row.Merchant || `Merchant_${row.MerchantID}``, the name the
high-risk recount uses — note the missing "Unknown" fallback: an absent
`MerchantID` interpolates as the string "undefined". -/
def merchantNameRecount (r : DRecord) : String :=
  if truthyS r.merchantCol then r.merchantCol.getD ""
  else "Merchant_" ++ r.merchantID.getD "undefined"

/-- The merchant fraud-rate test `fraudCount / totalForMerchant > 0.05`
under JavaScript division: a zero denominator with a positive numerator
is `Infinity` (passes) and `0/0` is `NaN` (fails). -/
def fraudRateExceeds (fraudCount total : ℕ) : Bool :=
  if total = 0 then 0 < fraudCount else (fraudCount : ℚ) / total > 5/100

/-- `processDataset` on the parsed rows: cap at 50,000 rows, accumulate
per-key counts, keep keys with a positive fraud count scored by
`mkPattern`, sort by descending score (stable) and keep the top 15;
common fraud indicators are the kept patterns scoring above 40.
CSV parsing itself is done by an external library and is out of scope;
this definition starts from the parsed row list. -/
def processDataset (records : List DRecord) : DatasetPatterns :=
  let recordsToProcess := records.take 50000
  let totalFraud := (recordsToProcess.filter isFraudRec).length
  let pats :=
    (sortByScoreDesc
      (((patternFrequency recordsToProcess).filter (fun e => 0 < e.2.2)).map
        (fun e => mkPattern e.1 e.2.1 e.2.2))).take 15
  let highRisk :=
    ((firstOccurMerchants (recordsToProcess.map merchantName)).filter
      (fun m => fraudRateExceeds
        ((recordsToProcess.filter (fun r => merchantName r = m ∧ isFraudRec r)).length)
        ((recordsToProcess.filter (fun r => merchantNameRecount r = m)).length))).take 10
  { patterns := pats
    totalTransactionsAnalyzed := recordsToProcess.length
    fraudPercentage := (totalFraud : ℚ) / recordsToProcess.length * 100
    highRiskMerchants := highRisk
    commonFraudIndicators := (pats.filter (fun p => 40 < p.fraudRiskScore)).map (·.pattern) }

/-! ## LLM Fraud Analysis Orchestrator (`analyzeFraudWithLLM`) -/

/-- Risk level of a detected fraud pattern. -/
inductive RiskLevel where
  | low
  | medium
  | high
  | critical
deriving DecidableEq

/-- The fixed risk weights of the rule-based overall-risk blend. -/
def riskWeight : RiskLevel → ℚ
  | .critical => 100
  | .high => 70
  | .medium => 50
  | .low => 20

/-- One detected fraud pattern of the analysis report. -/
structure FraudPattern where
  pattern : String
  frequency : ℕ
  riskLevel : RiskLevel
  affectedTransactions : ℤ
deriving DecidableEq

/-- The largest transaction of one side of the debit/credit breakdown. -/
structure LargestTxn where
  amount : ℚ
  merchant : String
deriving DecidableEq

/-- The deterministic debit/credit breakdown.  The category `Record`s are
modelled as association lists in key-insertion order. -/
structure DebitCreditAnalysis where
  totalDebits : ℚ
  totalCredits : ℚ
  debitCount : ℕ
  creditCount : ℕ
  largestDebit : LargestTxn
  largestCredit : LargestTxn
  debitCategories : List (String × ℚ)
  creditCategories : List (String × ℚ)
deriving DecidableEq

/-- The full analysis report (`LLMFraudAnalysisResult`). -/
structure LLMFraudAnalysisResult where
  summary : String
  fraudPatterns : List FraudPattern
  debitCreditAnalysis : DebitCreditAnalysis
  riskAssessment : String
  recommendations : List String
  overallFraudRisk : ℚ
deriving DecidableEq

/-- `parseFloat(x.toFixed(2))`: round to two decimal places. -/
def roundTo2 (q : ℚ) : ℚ :=
  (jsRound (q * 100) : ℚ) / 100

/-- `parseFloat(x.toFixed(1))`: round to one decimal place. -/
def roundTo1 (q : ℚ) : ℚ :=
  (jsRound (q * 10) : ℚ) / 10

/-- `x.toFixed(1)` rendered as a string, for the non-negative values the
risk assessment interpolates. -/
def toFixed1Str (q : ℚ) : String :=
  toString (jsRound (q * 10) / 10) ++ "." ++ toString ((jsRound (q * 10) % 10).natAbs)

/-- One side's entry of the debit/credit scan: absolute amount, merchant,
category. -/
structure DCItem where
  amount : ℚ
  merchant : String
  category : String
deriving DecidableEq

/-- The debit (expense) entries, with `Math.abs` applied to the parsed
amount. -/
def debitsOf (transactions : List Txn) : List DCItem :=
  (transactions.filter (fun t => t.type = "expense")).map
    (fun t => ⟨|t.amount|, t.merchant, t.category⟩)

/-- The credit (income) entries. -/
def creditsOf (transactions : List Txn) : List DCItem :=
  (transactions.filter (fun t => t.type = "income")).map
    (fun t => ⟨|t.amount|, t.merchant, t.category⟩)

/-- Sum of the amounts of debit/credit entries. -/
def sumDC (items : List DCItem) : ℚ :=
  items.foldl (fun s d => s + d.amount) 0

/-- Per-category amount totals in category-insertion order (the
`debitCategories` / `creditCategories` accumulator objects). -/
def categoryTotals (items : List DCItem) : List (String × ℚ) :=
  (items.foldl (fun acc d => if acc.contains d.category then acc else acc ++ [d.category]) []).map
    (fun k => (k, sumDC (items.filter (fun d => d.category = k))))

/-- `items.reduce((max, d) => d.amount > max.amount ? d : max)` with the
`{amount: 0, merchant: "N/A"}` default for an empty side: the first
entry wins ties (replacement only on strictly greater amount). -/
def largestOf (items : List DCItem) : LargestTxn :=
  match items with
  | [] => ⟨0, "N/A"⟩
  | h :: t =>
    let m := t.foldl (fun m d => if d.amount > m.amount then d else m) h
    ⟨m.amount, m.merchant⟩

/-- `calculateDebitCreditAnalysis`. -/
def calculateDebitCreditAnalysis (transactions : List Txn) : DebitCreditAnalysis :=
  let debits := debitsOf transactions
  let credits := creditsOf transactions
  { totalDebits := roundTo2 (sumDC debits)
    totalCredits := roundTo2 (sumDC credits)
    debitCount := debits.length
    creditCount := credits.length
    largestDebit := largestOf debits
    largestCredit := largestOf credits
    debitCategories := categoryTotals debits
    creditCategories := categoryTotals credits }

/-- Risk level a mined dataset pattern translates to, by the fixed
thresholds of the fallback path. -/
def pretrainedRiskLevel (score : ℤ) : RiskLevel :=
  if score > 70 then .critical
  else if score > 50 then .high
  else if score > 30 then .medium
  else .low

/-- The key of the repeated-transaction grouping:
`${t.merchant}_${Math.round(amount / 100) * 100}`. -/
def repeatKey (t : Txn) : String :=
  t.merchant ++ "_" ++ toString (jsRound (t.amount / 100) * 100)

/-- `detectFraudPatterns` of the rule-based fallback: dataset-derived
patterns (when the startup cache is populated), the high-risk-merchant
match, the >15-in-24h velocity pattern, the large-transaction pattern,
repeated-similar-transaction groups, and the aggregate pattern over
already-flagged transactions, in source order.  The cache argument
models the process-wide `getPretrainedPatterns()` state. -/
def detectFraudPatterns (cache : Option DatasetPatterns) (transactions : List Txn)
    (now : ℚ) : List FraudPattern :=
  (match cache with
   | none => []
   | some pp =>
     if pp.patterns.length > 0 then
       (pp.patterns.take 5).map (fun pretrained =>
         { pattern := "[Dataset Pattern] " ++ pretrained.description
           frequency := pretrained.frequency
           riskLevel := pretrainedRiskLevel pretrained.fraudRiskScore
           affectedTransactions :=
             jsRound ((pretrained.frequency : ℚ) * ((pretrained.fraudRiskScore : ℚ) / 100)) }) ++
       (if pp.highRiskMerchants.length > 0 then
         (let matching := transactions.filter (fun t =>
            pp.highRiskMerchants.any (fun m => includesKw (lowerStr t.merchant) (String.mk (lowerStr m))))
          if matching.length > 0 then
            [{ pattern := "Transactions from high-risk merchants (IEEE data)"
               frequency := matching.length
               riskLevel := .high
               affectedTransactions := matching.length }]
          else [])
        else [])
     else []) ++
  (let last24h := transactions.filter (fun t => hoursDiff now t.date ≤ 24)
   if last24h.length > 15 then
     [{ pattern := "High transaction velocity (15+ transactions in 24 hours)"
        frequency := last24h.length
        riskLevel := .high
        affectedTransactions := last24h.length }]
   else []) ++
  (let largeTxns := transactions.filter (fun t => |t.amount| > 50000)
   if largeTxns.length > 0 then
     [{ pattern := "Large transactions detected (₹50,000+): " ++
          toString largeTxns.length ++ " transactions"
        frequency := largeTxns.length
        riskLevel := if largeTxns.length > 3 then .high else .medium
        affectedTransactions := largeTxns.length }]
   else []) ++
  ((transactions.foldl (fun acc t => if acc.contains (repeatKey t) then acc
      else acc ++ [repeatKey t]) []).filterMap (fun k =>
    let group := transactions.filter (fun t => repeatKey t = k)
    if group.length > 2 then
      some { pattern := "Repeated similar transactions: " ++
               (match group with | g :: _ => g.merchant | [] => "")
             frequency := group.length
             riskLevel := if group.length > 5 then .high else .medium
             affectedTransactions := group.length }
    else none)) ++
  (let fraudTxns := transactions.filter (fun t => t.isFraudulent)
   if fraudTxns.length > 0 then
     [{ pattern := "Flagged transactions detected by fraud detector"
        frequency := fraudTxns.length
        riskLevel := .critical
        affectedTransactions := fraudTxns.length }]
   else [])

/-- `provideRuleBasedAnalysis`: the deterministic fallback report.  The
decimal blend weights 0.4 / 0.35 / 0.25 are carried as the exact
rationals they denote. -/
def provideRuleBasedAnalysis (cache : Option DatasetPatterns) (transactions : List Txn)
    (debitCreditAnalysis : DebitCreditAnalysis) (now : ℚ) : LLMFraudAnalysisResult :=
  let patterns := detectFraudPatterns cache transactions now
  let fraudTxns := (transactions.filter (fun t => t.isFraudulent)).length
  let patternRiskScore : ℚ :=
    if patterns.length > 0 then
      ((patterns.map (fun p => riskWeight p.riskLevel)).foldl (· + ·) 0) / patterns.length
    else 0
  let totalAmount := debitCreditAnalysis.totalDebits + debitCreditAnalysis.totalCredits
  let debitCreditRatio : ℚ :=
    if totalAmount > 0 then
      |debitCreditAnalysis.totalDebits - debitCreditAnalysis.totalCredits| / totalAmount * 100
    else 0
  let flaggedPercentage : ℚ :=
    if transactions.length > 0 then (fraudTxns : ℚ) / transactions.length * 100 else 0
  let overallRisk :=
    min 100 (patternRiskScore * (40/100) + flaggedPercentage * (35/100) +
      (min debitCreditRatio 100) * (25/100))
  { summary := "Analyzed " ++ toString transactions.length ++ " transactions. Detected " ++
      toString fraudTxns ++ " flagged transactions and " ++ toString patterns.length ++
      " fraud patterns."
    fraudPatterns := patterns
    debitCreditAnalysis := debitCreditAnalysis
    riskAssessment := "Your account has a " ++ toFixed1Str overallRisk ++
      "% fraud risk score. " ++
      (if overallRisk ≥ 70 then "Multiple critical issues detected. Immediate review recommended."
       else if overallRisk ≥ 50 then
         "Several suspicious patterns identified. Enhanced monitoring advised."
       else "No critical issues found.")
    recommendations :=
      (["Monitor unusual merchant patterns regularly",
        "Enable transaction alerts for high-value transactions",
        "Review and verify one-time merchants",
        (if fraudTxns > 0 then "Contact bank if suspicious transactions found"
         else "Maintain current security practices"),
        "Keep transaction records for audit purposes",
        (if overallRisk ≥ 70 then "Consider updating account security and payment methods"
         else "")]).filter (fun s => s ≠ "")
    overallFraudRisk := roundTo1 overallRisk }

/-- The credential-free path of `analyzeFraudWithLLM`: compute the
debit/credit breakdown, then the rule-based report.  The Gemini branch
taken when an API key is supplied performs network I/O and is outside
this embedding; on any of its failures the source falls back to this
same rule-based path. -/
def analyzeFraudWithLLM (transactions : List Txn) (cache : Option DatasetPatterns)
    (now : ℚ) : LLMFraudAnalysisResult :=
  provideRuleBasedAnalysis cache transactions (calculateDebitCreditAnalysis transactions) now

/-- A synthetic dataset row: country "X", no other populated columns,
fraud label `f`. -/
def sampleRow (f : String) : DRecord :=
  ⟨f, none, none, none, .absent, .absent, none, some "X", none, none, none⟩

/-- A synthetic ten-row dataset in which exactly the first row is
fraudulent; every row contributes the keys "amount_under_100" (the
defaulted amount 0) and "country_X". -/
def sampleDataset : List DRecord :=
  sampleRow "1" :: List.replicate 9 (sampleRow "0")

/-! ## Theorems -/

/-- C6: for every merchant string and amount, `categorizeTransaction`
agrees with the specification's first-match-wins lookup over the ordered
keyword table, always lands in the closed nine-category taxonomy, and on
the concrete examples maps ("Starbucks Coffee", 5) to "Food & Dining"
and ("Random LLC", 5) to "Other". -/
theorem categorize_matches_spec (merchant : String) (amount : ℚ) :
    categorizeTransaction merchant amount = categorizeSpec merchant ∧
    categorizeTransaction merchant amount ∈ categoryTaxonomy ∧
    categorizeTransaction "Starbucks Coffee" 5 = "Food & Dining" ∧
    categorizeTransaction "Random LLC" 5 = "Other" := by
  refine ⟨?_, ?_, by decide, by decide⟩
  · simp only [categorizeTransaction, categorizeSpec, categoryKeywordTable, firstMatchCategory,
      List.any_cons, List.any_nil, Bool.or_false, Bool.or_assoc]
  · simp only [categorizeTransaction, categoryTaxonomy]
    split_ifs <;> simp

/-- C1: the risk score `detectFraud` returns is the maximum of the
triggered rules' scores (0 when none trigger), the verdict is fraudulent
exactly when that maximum reaches 85, and on amount 100,001 with empty
history the result is risk score 85 and a fraudulent verdict. -/
theorem detectFraud_riskScore_max (txn : Txn) (recent : List Txn) (now : ℚ) :
    (detectFraud txn recent now).riskScore = (triggeredScores txn recent now).foldr max 0 ∧
    ((detectFraud txn recent now).isFraudulent = true ↔
      85 ≤ (detectFraud txn recent now).riskScore) ∧
    (detectFraud ⟨100001, "Acme", "Other", "expense", 0, false⟩ [] 0).riskScore = 85 ∧
    (detectFraud ⟨100001, "Acme", "Other", "expense", 0, false⟩ [] 0).isFraudulent = true := by
  have hconc : detectFraudRisks ⟨100001, "Acme", "Other", "expense", 0, false⟩ ([] : List Txn) 0 =
      [⟨"Unusually large transaction amount", 55⟩, ⟨"Extremely large transaction amount", 85⟩,
       ⟨"First-time merchant with large amount", 40⟩] := by
    norm_num [detectFraudRisks, largeAmount, veryLargeAmount, highVelocity, rapidTransactions,
      firstTimeMerchantLarge, hasDuplicates, last24Hours, last5Minutes, merchantMatches,
      duplicateMatches]
  refine ⟨?_, ?_, ?_, ?_⟩
  · unfold detectFraud detectFraudRisks triggeredScores
    by_cases h1 : largeAmount txn <;> by_cases h2 : veryLargeAmount txn <;>
      by_cases h3 : highVelocity recent now <;> by_cases h4 : rapidTransactions recent now <;>
      by_cases h5 : firstTimeMerchantLarge txn recent <;>
      by_cases h6 : hasDuplicates txn recent now <;>
      simp [h1, h2, h3, h4, h5, h6]
  · simp [detectFraud, ge_iff_le]
  · simp only [detectFraud, hconc]
    decide
  · simp only [detectFraud, hconc]
    decide

/-- C9: the risk score `detectFraud` returns always lies in the finite
set {0, 40, 55, 70, 80, 85, 90}. -/
theorem detectFraud_riskScore_values (txn : Txn) (recent : List Txn) (now : ℚ) :
    (detectFraud txn recent now).riskScore ∈ [0, 40, 55, 70, 80, 85, 90] := by
  unfold detectFraud detectFraudRisks
  by_cases h1 : largeAmount txn <;> by_cases h2 : veryLargeAmount txn <;>
    by_cases h3 : highVelocity recent now <;> by_cases h4 : rapidTransactions recent now <;>
    by_cases h5 : firstTimeMerchantLarge txn recent <;>
    by_cases h6 : hasDuplicates txn recent now <;>
    simp [h1, h2, h3, h4, h5, h6]

/-- C10: the reason field of `detectFraud`'s result is present exactly
when the risk score reaches the fraud threshold 85. -/
theorem detectFraud_reason_iff_fraudulent (txn : Txn) (recent : List Txn) (now : ℚ) :
    (detectFraud txn recent now).reason.isSome = true ↔
      85 ≤ (detectFraud txn recent now).riskScore := by
  unfold detectFraud detectFraudRisks
  by_cases h1 : largeAmount txn <;> by_cases h2 : veryLargeAmount txn <;>
    by_cases h3 : highVelocity recent now <;> by_cases h4 : rapidTransactions recent now <;>
    by_cases h5 : firstTimeMerchantLarge txn recent <;>
    by_cases h6 : hasDuplicates txn recent now <;>
    simp [h1, h2, h3, h4, h5, h6]

/-- C2 counterexample: on amount 60,000 with empty history, rules 1 and
5 trigger and rule 1's score 55 is the maximum, yet the returned reason
is `none` (not rule 1's reason string): the reason is reported only on a
fraudulent verdict. -/
theorem detectFraud_reason_cex :
    (detectFraud ⟨60000, "Acme", "Other", "expense", 0, false⟩ [] 0).riskScore = 55 ∧
    (detectFraud ⟨60000, "Acme", "Other", "expense", 0, false⟩ [] 0).reason = none := by
  have hconc : detectFraudRisks ⟨60000, "Acme", "Other", "expense", 0, false⟩ ([] : List Txn) 0 =
      [⟨"Unusually large transaction amount", 55⟩,
       ⟨"First-time merchant with large amount", 40⟩] := by
    norm_num [detectFraudRisks, largeAmount, veryLargeAmount, highVelocity, rapidTransactions,
      firstTimeMerchantLarge, hasDuplicates, last24Hours, last5Minutes, merchantMatches,
      duplicateMatches]
  constructor
  · simp only [detectFraud, hconc]
    decide
  · simp only [detectFraud, hconc]
    decide

/-- C2 amended: the reason is the reason string of the first triggered
rule attaining the maximum score when the verdict is fraudulent (risk
score at least 85), and is absent otherwise. -/
theorem detectFraud_reason_first_max (txn : Txn) (recent : List Txn) (now : ℚ) :
    (detectFraud txn recent now).reason =
      if 85 ≤ (detectFraud txn recent now).riskScore then
        ((detectFraudRisks txn recent now).find?
          (fun r => r.score = (detectFraud txn recent now).riskScore)).map (·.reason)
      else none := by
  simp [detectFraud, ge_iff_le]

/-- C8: a candidate with amount at most 50,000 whose history presents no
velocity, rapid-transaction, first-time-merchant or duplicate condition
is scored 0 and judged not fraudulent. -/
theorem detectFraud_small_amount_clean (txn : Txn) (recent : List Txn) (now : ℚ)
    (hamt : txn.amount ≤ 50000)
    (hvel : ¬ highVelocity recent now)
    (hrapid : ¬ rapidTransactions recent now)
    (hfirst : ¬ firstTimeMerchantLarge txn recent)
    (hdup : ¬ hasDuplicates txn recent now) :
    (detectFraud txn recent now).isFraudulent = false ∧
      (detectFraud txn recent now).riskScore = 0 := by
  have h1 : ¬ largeAmount txn := by
    simp only [largeAmount, not_lt]
    linarith
  have h2 : ¬ veryLargeAmount txn := by
    simp only [veryLargeAmount, not_lt]
    linarith
  simp [detectFraud, detectFraudRisks, h1, h2, hvel, hrapid, hfirst, hdup]

/-- Witness for C8 at a concrete clean transaction. -/
theorem detectFraud_small_amount_clean_witness :
    (detectFraud ⟨100, "Acme", "Other", "expense", 0, false⟩ [] 0).isFraudulent = false ∧
    (detectFraud ⟨100, "Acme", "Other", "expense", 0, false⟩ [] 0).riskScore = 0 :=
  detectFraud_small_amount_clean ⟨100, "Acme", "Other", "expense", 0, false⟩ [] 0
    (by norm_num) (by decide) (by decide)
    (by norm_num [firstTimeMerchantLarge, merchantMatches]) (by decide)

/-- C4: with an empty transaction list or zero monthly income,
`calculateFinancialHealth` returns the neutral default 50 for the
composite and all five components. -/
theorem health_neutral_default (ts : List Txn) (inc cutoff : ℚ)
    (h : ts = [] ∨ inc = 0) :
    calculateFinancialHealth ts inc cutoff = ⟨50, 50, 50, 50, 50, 50⟩ := by
  rcases h with h | h
  · subst h
    simp [calculateFinancialHealth]
  · subst h
    simp [calculateFinancialHealth]

/-- Witness for C4: the empty list with income 5 and a one-transaction
list with income 0 both produce the all-50 record. -/
theorem health_neutral_default_witness :
    calculateFinancialHealth [] 5 0 = ⟨50, 50, 50, 50, 50, 50⟩ ∧
    calculateFinancialHealth [⟨100, "Acme", "Other", "income", 0, false⟩] 0 0 =
      ⟨50, 50, 50, 50, 50, 50⟩ :=
  ⟨health_neutral_default [] 5 0 (Or.inl rfl),
   health_neutral_default [⟨100, "Acme", "Other", "income", 0, false⟩] 0 0 (Or.inr rfl)⟩


/-- C3 counterexample: one income transaction of 100 in the window,
income 10, no expenses — `savingsAmount` is positive, the derived
`monthlyExpense` is 0, yet the liquidity component is 100, not 0: the
positive-by-zero division yields JavaScript `Infinity` and `Math.min`
collapses it to the cap. -/
theorem health_liquidity_cex :
    0 < savingsIn [⟨100, "Acme", "Salary", "income", 0, false⟩] (-1) ∧
    expensesIn [⟨100, "Acme", "Salary", "income", 0, false⟩] (-1) = 0 ∧
    (calculateFinancialHealth [⟨100, "Acme", "Salary", "income", 0, false⟩] 10 (-1)).liquidity =
      100 := by
  have hrec : recentIn [⟨100, "Acme", "Salary", "income", 0, false⟩] (-1) =
      [⟨100, "Acme", "Salary", "income", 0, false⟩] := by
    norm_num [recentIn, List.filter_cons, decide_eq_true_eq]
  have hexp : expensesIn [⟨100, "Acme", "Salary", "income", 0, false⟩] (-1) = 0 := by
    simp [expensesIn, hrec, sumAmounts, List.filter_cons, String.reduceEq]
  have hinc : incomeIn [⟨100, "Acme", "Salary", "income", 0, false⟩] (-1) = 100 := by
    simp [incomeIn, hrec, sumAmounts, List.filter_cons, String.reduceEq]
  have hguard : ¬ (([⟨100, "Acme", "Salary", "income", 0, false⟩] : List Txn).length = 0 ∨
      (10 : ℚ) = 0) := by
    norm_num
  have hs' : incomeIn [⟨100, "Acme", "Salary", "income", 0, false⟩] (-1) -
      expensesIn [⟨100, "Acme", "Salary", "income", 0, false⟩] (-1) > 0 := by
    rw [hexp, hinc]
    norm_num
  have hme : expensesIn [⟨100, "Acme", "Salary", "income", 0, false⟩] (-1) / 3 = 0 := by
    rw [hexp]
    norm_num
  refine ⟨by rw [savingsIn, hexp, hinc]; norm_num, hexp, ?_⟩
  simp only [calculateFinancialHealth, if_neg hguard, if_pos hs', if_pos hme]
  norm_num [jsRound]

/-- C3 amended: under a nonempty transaction list and nonzero income,
the liquidity component is 0 whenever `savingsAmount` is at most 0;
when `savingsAmount` is positive and the window's expenses are 0 (so the
derived `monthlyExpense` is 0), the liquidity component is 100. -/
theorem health_liquidity_amended (ts : List Txn) (inc cutoff : ℚ)
    (hne : ts ≠ []) (hinc : inc ≠ 0) :
    (savingsIn ts cutoff ≤ 0 → (calculateFinancialHealth ts inc cutoff).liquidity = 0) ∧
    (0 < savingsIn ts cutoff → expensesIn ts cutoff = 0 →
      (calculateFinancialHealth ts inc cutoff).liquidity = 100) := by
  have hguard : ¬ (ts.length = 0 ∨ inc = 0) := by
    push_neg
    exact ⟨fun h => hne (List.length_eq_zero.mp h), hinc⟩
  constructor
  · intro hs
    have hs' : ¬ (incomeIn ts cutoff - expensesIn ts cutoff > 0) := by
      simp only [savingsIn] at hs
      simp only [not_lt]
      linarith
    simp only [calculateFinancialHealth, if_neg hguard, if_neg hs']
    norm_num [jsRound]
  · intro hs hexp
    have hs' : incomeIn ts cutoff - expensesIn ts cutoff > 0 := by
      simpa [savingsIn] using hs
    have hexp' : expensesIn ts cutoff / 3 = 0 := by
      rw [hexp]
      norm_num
    simp only [calculateFinancialHealth, if_neg hguard, if_pos hs', if_pos hexp']
    norm_num [jsRound]

/-- Witness for C3 amended: a lone expense gives nonpositive savings and
liquidity 0; a lone income with no expenses gives liquidity 100. -/
theorem health_liquidity_amended_witness :
    (calculateFinancialHealth [⟨30, "Acme", "Other", "expense", 0, false⟩] 10 (-1)).liquidity =
      0 ∧
    (calculateFinancialHealth [⟨100, "Acme", "Salary", "income", 0, false⟩] 10 (-1)).liquidity =
      100 :=
  ⟨(health_liquidity_amended [⟨30, "Acme", "Other", "expense", 0, false⟩] 10 (-1)
      (by simp) (by norm_num)).1
    (by
      have hrec : recentIn [⟨30, "Acme", "Other", "expense", 0, false⟩] (-1) =
          [⟨30, "Acme", "Other", "expense", 0, false⟩] := by
        norm_num [recentIn, List.filter_cons, decide_eq_true_eq]
      simp only [savingsIn, incomeIn, expensesIn, hrec, sumAmounts, List.filter_cons,
        List.filter_nil, String.reduceEq, List.foldl]
      norm_num),
   (health_liquidity_amended [⟨100, "Acme", "Salary", "income", 0, false⟩] 10 (-1)
      (by simp) (by norm_num)).2
    (by
      have hrec : recentIn [⟨100, "Acme", "Salary", "income", 0, false⟩] (-1) =
          [⟨100, "Acme", "Salary", "income", 0, false⟩] := by
        norm_num [recentIn, List.filter_cons, decide_eq_true_eq]
      simp only [savingsIn, incomeIn, expensesIn, hrec, sumAmounts, List.filter_cons,
        List.filter_nil, String.reduceEq, List.foldl]
      norm_num)
    (by
      have hrec : recentIn [⟨100, "Acme", "Salary", "income", 0, false⟩] (-1) =
          [⟨100, "Acme", "Salary", "income", 0, false⟩] := by
        norm_num [recentIn, List.filter_cons, decide_eq_true_eq]
      simp [expensesIn, hrec, sumAmounts, List.filter_cons, String.reduceEq])⟩

/-- C7: the credential-free path of `analyzeFraudWithLLM` is total and
its report is fully populated — in particular the recommendation list is
never empty — and on the empty transaction list with an unpopulated
dataset cache the debit/credit totals and counts are all zero, the fraud
pattern list is empty and the overall fraud risk is 0. -/
theorem analyzeFraud_no_key_defaults (transactions : List Txn)
    (cache : Option DatasetPatterns) (now : ℚ) :
    (analyzeFraudWithLLM transactions cache now).recommendations ≠ [] ∧
    (analyzeFraudWithLLM [] none now).debitCreditAnalysis =
      ⟨0, 0, 0, 0, ⟨0, "N/A"⟩, ⟨0, "N/A"⟩, [], []⟩ ∧
    (analyzeFraudWithLLM [] none now).fraudPatterns = [] ∧
    (analyzeFraudWithLLM [] none now).overallFraudRisk = 0 := by
  have hdca : calculateDebitCreditAnalysis [] =
      ⟨0, 0, 0, 0, ⟨0, "N/A"⟩, ⟨0, "N/A"⟩, [], []⟩ := by
    norm_num [calculateDebitCreditAnalysis, debitsOf, creditsOf, sumDC, roundTo2,
      largestOf, categoryTotals, jsRound]
  have hpat : detectFraudPatterns none ([] : List Txn) now = [] := by
    simp [detectFraudPatterns]
  refine ⟨?_, ?_, ?_, ?_⟩
  · simp [analyzeFraudWithLLM, provideRuleBasedAnalysis, List.filter_cons, String.reduceEq]
  · simp [analyzeFraudWithLLM, provideRuleBasedAnalysis, hdca, hpat]
  · simp [analyzeFraudWithLLM, provideRuleBasedAnalysis, hdca, hpat]
  · simp only [analyzeFraudWithLLM, provideRuleBasedAnalysis, hdca, hpat]
    norm_num [roundTo1, jsRound]

/-- Folding the first-occurrence key accumulator collects exactly the
keys of the accumulator and of the remaining events. -/
theorem mem_insKeyFold (l : List (String × Bool)) (acc : List String) (k : String) :
    k ∈ l.foldl (fun acc e => if acc.contains e.1 then acc else acc ++ [e.1]) acc ↔
      k ∈ acc ∨ k ∈ l.map Prod.fst := by
  induction l generalizing acc with
  | nil => simp
  | cons e t ih =>
    simp only [List.foldl_cons, List.map_cons, List.mem_cons]
    rw [ih]
    by_cases hc : acc.contains e.1 = true
    · have he : e.1 ∈ acc := by simpa using hc
      rw [if_pos hc]
      constructor
      · rintro (h | h)
        exacts [Or.inl h, Or.inr (Or.inr h)]
      · rintro (h | rfl | h)
        exacts [Or.inl h, Or.inl he, Or.inr h]
    · rw [if_neg hc]
      simp only [List.mem_append, List.mem_singleton]
      tauto

/-- Membership of a key in `firstOccurKeys` is membership among the
events' keys. -/
theorem mem_firstOccurKeys (evs : List (String × Bool)) (k : String) :
    k ∈ firstOccurKeys evs ↔ k ∈ evs.map Prod.fst := by
  rw [firstOccurKeys, mem_insKeyFold]
  simp

/-- Membership through a stable descending insertion. -/
theorem mem_insertDesc (p q : PretrainedFraudPattern) (l : List PretrainedFraudPattern) :
    q ∈ insertDesc p l ↔ q = p ∨ q ∈ l := by
  induction l with
  | nil => simp [insertDesc]
  | cons a t ih =>
    by_cases h : a.fraudRiskScore > p.fraudRiskScore
    · simp only [insertDesc, if_pos h, List.mem_cons, ih]
      tauto
    · simp only [insertDesc, if_neg h, List.mem_cons]

/-- Membership is preserved by the stable descending sort. -/
theorem mem_sortByScoreDesc (q : PretrainedFraudPattern) (l : List PretrainedFraudPattern) :
    q ∈ sortByScoreDesc l ↔ q ∈ l := by
  induction l with
  | nil => simp [sortByScoreDesc]
  | cons a t ih =>
    simp only [sortByScoreDesc, mem_insertDesc, List.mem_cons, ih]

/-- A stable descending insertion preserves descending order. -/
theorem pairwise_insertDesc (p : PretrainedFraudPattern) (l : List PretrainedFraudPattern)
    (h : l.Pairwise (fun a b => b.fraudRiskScore ≤ a.fraudRiskScore)) :
    (insertDesc p l).Pairwise (fun a b => b.fraudRiskScore ≤ a.fraudRiskScore) := by
  induction l with
  | nil => simp [insertDesc]
  | cons a t ih =>
    rcases List.pairwise_cons.mp h with ⟨ha, ht⟩
    by_cases hc : a.fraudRiskScore > p.fraudRiskScore
    · rw [insertDesc, if_pos hc]
      refine List.pairwise_cons.mpr ⟨?_, ih ht⟩
      intro x hx
      rcases (mem_insertDesc p x t).mp hx with rfl | hx
      · exact le_of_lt hc
      · exact ha x hx
    · rw [insertDesc, if_neg hc]
      refine List.pairwise_cons.mpr ⟨?_, h⟩
      intro x hx
      rcases List.mem_cons.mp hx with rfl | hx
      · exact not_lt.mp hc
      · exact le_trans (ha x hx) (not_lt.mp hc)

/-- The stable descending sort produces a descending list. -/
theorem pairwise_sortByScoreDesc (l : List PretrainedFraudPattern) :
    (sortByScoreDesc l).Pairwise (fun a b => b.fraudRiskScore ≤ a.fraudRiskScore) := by
  induction l with
  | nil => simp [sortByScoreDesc]
  | cons a t ih => exact pairwise_insertDesc a (sortByScoreDesc t) ih

/-- Stable descending insertion adds one element. -/
theorem length_insertDesc (p : PretrainedFraudPattern) (l : List PretrainedFraudPattern) :
    (insertDesc p l).length = l.length + 1 := by
  induction l with
  | nil => rfl
  | cons a t ih =>
    by_cases hc : a.fraudRiskScore > p.fraudRiskScore
    · simp [insertDesc, if_pos hc, ih]
    · simp [insertDesc, if_neg hc]

/-- The stable descending sort preserves length. -/
theorem length_sortByScoreDesc (l : List PretrainedFraudPattern) :
    (sortByScoreDesc l).length = l.length := by
  induction l with
  | nil => rfl
  | cons a t ih => simp [sortByScoreDesc, length_insertDesc, ih]

/-- C5: the mined patterns are the top 15 of the keys with a positive
fraud count: there are exactly `min 15 (number of such keys)` of them
(hence all of them whenever fewer than 15 qualify), each carries its
key's frequency and the score `min(100, round(fraud_rate_percent * 2))`,
they are listed in descending score order, and every qualifying key that
was truncated away scores no higher than any kept pattern; the common
fraud indicators are exactly the output patterns scoring above 40; and
on the synthetic ten-row dataset with one fraudulent row each key's risk
score is 20. -/
theorem processDataset_spec (records : List DRecord) :
    (processDataset records).patterns.length ≤ 15 ∧
    (processDataset records).patterns.length =
      min 15 (((firstOccurKeys (allEvents (records.take 50000))).filter
        (fun k => 0 < fraudEv (allEvents (records.take 50000)) k)).length) ∧
    (processDataset records).patterns.Pairwise
      (fun a b => b.fraudRiskScore ≤ a.fraudRiskScore) ∧
    (∀ p ∈ (processDataset records).patterns,
      0 < fraudEv (allEvents (records.take 50000)) p.pattern ∧
      p.frequency = countEv (allEvents (records.take 50000)) p.pattern ∧
      p.fraudRiskScore = min 100 (jsRound
        ((fraudEv (allEvents (records.take 50000)) p.pattern : ℚ) /
          countEv (allEvents (records.take 50000)) p.pattern * 100 * 2))) ∧
    (processDataset records).commonFraudIndicators =
      ((processDataset records).patterns.filter
        (fun p => 40 < p.fraudRiskScore)).map (·.pattern) ∧
    ((processDataset records).patterns.length < 15 →
      ∀ k, (k ∈ (allEvents (records.take 50000)).map Prod.fst ∧
          0 < fraudEv (allEvents (records.take 50000)) k) ↔
        k ∈ (processDataset records).patterns.map (·.pattern)) ∧
    (∀ k, k ∈ (allEvents (records.take 50000)).map Prod.fst →
      0 < fraudEv (allEvents (records.take 50000)) k →
      k ∉ (processDataset records).patterns.map (·.pattern) →
      ∀ p ∈ (processDataset records).patterns,
        min 100 (jsRound ((fraudEv (allEvents (records.take 50000)) k : ℚ) /
          countEv (allEvents (records.take 50000)) k * 100 * 2)) ≤ p.fraudRiskScore) ∧
    (processDataset sampleDataset).patterns =
      [⟨"amount_under_100", 10, 20, "Very low transaction amount"⟩,
       ⟨"country_X", 10, 20, "country_X"⟩] := by
  have hp : (processDataset records).patterns =
      (sortByScoreDesc (((patternFrequency (records.take 50000)).filter
        (fun e => 0 < e.2.2)).map (fun e => mkPattern e.1 e.2.1 e.2.2))).take 15 := rfl
  have hmemL : ∀ p, p ∈ (((patternFrequency (records.take 50000)).filter
        (fun e => 0 < e.2.2)).map (fun e => mkPattern e.1 e.2.1 e.2.2)) ↔
      ∃ k, (k ∈ firstOccurKeys (allEvents (records.take 50000)) ∧
          0 < fraudEv (allEvents (records.take 50000)) k) ∧
        p = mkPattern k (countEv (allEvents (records.take 50000)) k)
          (fraudEv (allEvents (records.take 50000)) k) := by
    intro p
    simp only [patternFrequency, List.mem_map, List.mem_filter, decide_eq_true_eq]
    constructor
    · rintro ⟨e, ⟨⟨k, hk, rfl⟩, hf⟩, rfl⟩
      exact ⟨k, ⟨hk, hf⟩, rfl⟩
    · rintro ⟨k, ⟨hk, hf⟩, rfl⟩
      exact ⟨(k, countEv (allEvents (records.take 50000)) k,
        fraudEv (allEvents (records.take 50000)) k), ⟨⟨k, hk, rfl⟩, hf⟩, rfl⟩
  refine ⟨?_, ?_, ?_, ?_, rfl, ?_, ?_, ?_⟩
  · rw [hp]
    exact List.length_take_le _ _
  · rw [hp, List.length_take, length_sortByScoreDesc, List.length_map]
    simp only [patternFrequency]
    rw [List.filter_map, List.length_map]
    rfl
  · rw [hp]
    exact List.Pairwise.sublist (List.take_sublist _ _) (pairwise_sortByScoreDesc _)
  · intro p hpmem
    rw [hp] at hpmem
    have hmem := (mem_sortByScoreDesc p _).mp ((List.take_sublist _ _).subset hpmem)
    rcases (hmemL p).mp hmem with ⟨k, ⟨hk, hf⟩, rfl⟩
    exact ⟨hf, rfl, rfl⟩
  · intro hlt k
    rw [hp, List.length_take] at hlt
    have hlen : (sortByScoreDesc (((patternFrequency (records.take 50000)).filter
        (fun e => 0 < e.2.2)).map (fun e => mkPattern e.1 e.2.1 e.2.2))).length < 15 := by
      rcases min_lt_iff.mp hlt with h | h
      · omega
      · exact h
    rw [hp, List.take_of_length_le (le_of_lt hlen)]
    simp only [List.mem_map]
    constructor
    · rintro ⟨hk, hf⟩
      refine ⟨mkPattern k (countEv (allEvents (records.take 50000)) k)
        (fraudEv (allEvents (records.take 50000)) k), ?_, rfl⟩
      exact (mem_sortByScoreDesc _ _).mpr ((hmemL _).mpr
        ⟨k, ⟨(mem_firstOccurKeys _ _).mpr (List.mem_map.mpr hk), hf⟩, rfl⟩)
    · rintro ⟨p, hpmem, rfl⟩
      rcases (hmemL p).mp ((mem_sortByScoreDesc _ _).mp hpmem) with ⟨k', ⟨hk', hf'⟩, rfl⟩
      exact ⟨List.mem_map.mp ((mem_firstOccurKeys _ _).mp hk'), hf'⟩
  · intro k hk hf hnot p hpmem
    rw [hp] at hpmem
    have hqS : mkPattern k (countEv (allEvents (records.take 50000)) k)
        (fraudEv (allEvents (records.take 50000)) k) ∈
        sortByScoreDesc (((patternFrequency (records.take 50000)).filter
          (fun e => 0 < e.2.2)).map (fun e => mkPattern e.1 e.2.1 e.2.2)) :=
      (mem_sortByScoreDesc _ _).mpr ((hmemL _).mpr
        ⟨k, ⟨(mem_firstOccurKeys _ _).mpr hk, hf⟩, rfl⟩)
    rw [← List.take_append_drop 15 (sortByScoreDesc (((patternFrequency
      (records.take 50000)).filter (fun e => 0 < e.2.2)).map
        (fun e => mkPattern e.1 e.2.1 e.2.2)))] at hqS
    rcases List.mem_append.mp hqS with hq | hq
    · exact absurd (by rw [hp]; exact List.mem_map.mpr ⟨_, hq, rfl⟩) hnot
    · have hpair := pairwise_sortByScoreDesc (((patternFrequency (records.take 50000)).filter
        (fun e => 0 < e.2.2)).map (fun e => mkPattern e.1 e.2.1 e.2.2))
      rw [← List.take_append_drop 15 (sortByScoreDesc (((patternFrequency
        (records.take 50000)).filter (fun e => 0 < e.2.2)).map
          (fun e => mkPattern e.1 e.2.1 e.2.2)))] at hpair
      exact (List.pairwise_append.mp hpair).2.2 p hpmem _ hq
  · have hrow0 : extractPatterns (sampleRow "0") = ["amount_under_100", "country_X"] := by
      simp only [sampleRow, extractPatterns, recordAmt, jsOrAmt, AmtCell.truthy, truthyS,
        Option.getD, String.reduceEq]
      norm_num
      decide
    have hrow1 : extractPatterns (sampleRow "1") = ["amount_under_100", "country_X"] := by
      simp only [sampleRow, extractPatterns, recordAmt, jsOrAmt, AmtCell.truthy, truthyS,
        Option.getD, String.reduceEq]
      norm_num
      decide
    have hf0 : isFraudRec (sampleRow "0") = false := by decide
    have hf1 : isFraudRec (sampleRow "1") = true := by decide
    have hev : allEvents sampleDataset =
        ("amount_under_100", true) :: ("country_X", true) ::
          (List.replicate 9 [(("amount_under_100" : String), false),
            (("country_X" : String), false)]).flatten := by
      simp [allEvents, sampleDataset, hrow1, hrow0, hf0, hf1]
    have htake50 : sampleDataset.take 50000 = sampleDataset :=
      List.take_of_length_le (by simp [sampleDataset])
    have hfreq : patternFrequency sampleDataset =
        [("amount_under_100", 10, 1), ("country_X", 10, 1)] := by
      unfold patternFrequency
      rw [hev]
      decide
    have hmk1 : mkPattern "amount_under_100" 10 1 =
        ⟨"amount_under_100", 10, 20, "Very low transaction amount"⟩ := by
      simp only [mkPattern, getPatternDescription, patternDescTable, List.find?,
        String.reduceEq, PretrainedFraudPattern.mk.injEq]
      norm_num [jsRound]
    have hmk2 : mkPattern "country_X" 10 1 = ⟨"country_X", 10, 20, "country_X"⟩ := by
      simp only [mkPattern, getPatternDescription, patternDescTable, List.find?,
        String.reduceEq, PretrainedFraudPattern.mk.injEq]
      norm_num [jsRound]
    have hp2 : (processDataset sampleDataset).patterns =
        (sortByScoreDesc (((patternFrequency (sampleDataset.take 50000)).filter
          (fun e => 0 < e.2.2)).map (fun e => mkPattern e.1 e.2.1 e.2.2))).take 15 := rfl
    rw [hp2, htake50, hfreq]
    simp only [List.filter_cons, List.filter_nil, List.map_cons, List.map_nil]
    norm_num
    rw [hmk1, hmk2]
    decide
